import Mathlib

set_option linter.unusedVariables false

/-!
Verification of the spritesheetExporter plugin's algorithmic core against its
design specification.  The definitions below are shallow embeddings of the
Python sources: the grid packer, the frame-time resolver, the frame collector
(with its deduplication and document-time handling), and the frame placer /
texture-atlas writer.  The repository contains two generations of the export
pipeline, the newer one in `exporter.py` (class `Exporter`) and the older one
in `spritesheet_exporter.py` (class `SpritesheetExporter`); both are embedded
where the spec's statements touch both.
-/

namespace SpriteSheet

/-- The sentinel value `DEFAULT_TIME = -1` from exporter.py, meaning an unset
start or end frame time. -/
def DEFAULT_TIME : Int := -1

/-- The sentinel value `DEFAULT_SPACE = 0` from exporter.py, meaning an unset
row or column count. -/
def DEFAULT_SPACE : Nat := 0

/-- Ceiling division on naturals.  For `1 ≤ m` this is Python's
`ceil(n / m)` (exact, since the quotients involved are far below the range
where float division misrounds). -/
def cdiv (n m : Nat) : Nat := (n + m - 1) / m

/-- Ceiling of the square root, Python's `ceil(sqrt(n))`. -/
def ceilSqrt (n : Nat) : Nat :=
  if Nat.sqrt n * Nat.sqrt n = n then Nat.sqrt n else Nat.sqrt n + 1

lemma le_cdiv_mul (n m : Nat) (hm : 1 ≤ m) : n ≤ cdiv n m * m := by
  unfold cdiv
  rw [Nat.mul_comm]
  have h := Nat.div_add_mod (n + m - 1) m
  have hr : (n + m - 1) % m < m := Nat.mod_lt _ (by omega)
  omega

lemma cdiv_pos (n m : Nat) (hn : 1 ≤ n) (hm : 1 ≤ m) : 1 ≤ cdiv n m := by
  unfold cdiv
  rw [Nat.le_div_iff_mul_le (by omega)]
  omega

lemma cdiv_eq_one (n m : Nat) (hn : 1 ≤ n) (hnm : n ≤ m) : cdiv n m = 1 := by
  unfold cdiv
  have h1 : 1 * m ≤ n + m - 1 := by omega
  have h2 : n + m - 1 < (1 + 1) * m := by omega
  exact Nat.div_eq_of_lt_le h1 h2

lemma cdiv_min (n c : Nat) (hn : 1 ≤ n) :
    cdiv n (min c n) = cdiv n c := by
  rcases Nat.le_total c n with h | h
  · rw [Nat.min_eq_left h]
  · rw [Nat.min_eq_right h, cdiv_eq_one n n hn (Nat.le_refl n),
      cdiv_eq_one n c hn h]

lemma le_ceilSqrt_sq (n : Nat) : n ≤ ceilSqrt n * ceilSqrt n := by
  unfold ceilSqrt
  split
  · omega
  · have h := Nat.lt_succ_sqrt n
    rw [Nat.succ_eq_add_one] at h
    omega

lemma ceilSqrt_pos (n : Nat) (hn : 1 ≤ n) : 1 ≤ ceilSqrt n := by
  have h := le_ceilSqrt_sq n
  rcases Nat.eq_zero_or_pos (ceilSqrt n) with h0 | h0
  · rw [h0] at h
    omega
  · exact h0

lemma sqrt_ten : Nat.sqrt 10 = 3 := by
  have h1 : 3 ≤ Nat.sqrt 10 := Nat.le_sqrt.mpr (by norm_num)
  have h2 : Nat.sqrt 10 < 4 := Nat.sqrt_lt.mpr (by norm_num)
  omega

lemma ceilSqrt_ten : ceilSqrt 10 = 4 := by
  unfold ceilSqrt
  rw [sqrt_ten]
  norm_num

/-- The grid-packing step of `Exporter.export` (exporter.py lines 346-357).
Inputs are the collected frame count `num_frames` and the user configuration
`columns`/`rows` (`0` = unset, the UI spin box minimum is `0`); the result is
the final `(columns, rows)` pair.  Python's `ZeroDivisionError` (raised by
`ceil(num_frames / 0)`) is made explicit as `Except.error`. -/
def packE (num_frames columns rows : Nat) : Except Unit (Nat × Nat) :=
  if columns ≠ DEFAULT_SPACE then
    -- Remove empty sprite cells: columns = min(columns, num_frames)
    if min columns num_frames = 0 then Except.error ()
    else Except.ok (min columns num_frames, cdiv num_frames (min columns num_frames))
  else if rows ≠ DEFAULT_SPACE then
    if min rows num_frames = 0 then Except.error ()
    else Except.ok (cdiv num_frames (min rows num_frames), min rows num_frames)
  else
    -- Pack the sprites as densely as possible with a square fit
    Except.ok (ceilSqrt num_frames, ceilSqrt num_frames)

/-- The same computation as `packE` with the division left unchecked (total
on Nat); `packE` returns `Except.ok (packT ..)` whenever it does not raise. -/
def packT (num_frames columns rows : Nat) : Nat × Nat :=
  if columns ≠ DEFAULT_SPACE then
    (min columns num_frames, cdiv num_frames (min columns num_frames))
  else if rows ≠ DEFAULT_SPACE then
    (cdiv num_frames (min rows num_frames), min rows num_frames)
  else
    (ceilSqrt num_frames, ceilSqrt num_frames)

/-- The grid-packing step of `SpritesheetExporter.export`
(spritesheet_exporter.py lines 268-289).  `framesNum` is the frame count
already net of skipped invisible layers (`framesNum - self.offLayers`).
The result is the final `(columns, rows)` pair.  The divisions here can
divide by zero only when `framesNum = 0`; every theorem below assumes
`1 ≤ framesNum`, under which each divisor is at least 1. -/
def ssPack (framesNum columns rows : Nat) : Nat × Nat :=
  if rows = DEFAULT_SPACE ∧ columns = DEFAULT_SPACE then
    -- square fit
    let c := ceilSqrt framesNum
    (c, cdiv framesNum c)
  else if rows = DEFAULT_SPACE then
    (columns, cdiv framesNum columns)
  else if columns = DEFAULT_SPACE then
    -- guessing columns may also change the user-set number of rows
    let c := cdiv framesNum rows
    (c, cdiv framesNum c)
  else
    (columns, rows)

lemma packE_eq_ok (n c r : Nat) (hn : 1 ≤ n) :
    packE n c r = Except.ok (packT n c r) := by
  unfold packE packT
  by_cases hc : c ≠ DEFAULT_SPACE
  · rw [if_pos hc, if_pos hc]
    have hmin : ¬ (min c n = 0) := by
      unfold DEFAULT_SPACE at hc
      omega
    rw [if_neg hmin]
  · rw [if_neg hc, if_neg hc]
    by_cases hr : r ≠ DEFAULT_SPACE
    · rw [if_pos hr, if_pos hr]
      have hmin : ¬ (min r n = 0) := by
        unfold DEFAULT_SPACE at hr
        omega
      rw [if_neg hmin]
    · rw [if_neg hr, if_neg hr]

/-- A host animation layer as the frame-time resolver sees it: its visibility,
whether it is animated, and its keyframe predicate (`Node.hasKeyframeAtTime`). -/
structure Layer where
  visible : Bool
  animated : Bool
  hasKeyframeAtTime : Int → Bool

/-- The host-document data the frame-time resolver reads: the full clip range
and the recursively flattened layer list (`KritaVersion.recurse_children`). -/
structure Document where
  fullClipRangeStartTime : Int
  fullClipRangeEndTime : Int
  layers : List Layer

/-- The frame-range state of dataclass `FrameTimes` (exporter.py).  The field
`stop` embeds the Python field `end`, a reserved word in Lean. -/
structure FrameTimes where
  start : Int
  stop : Int
  step : Int
deriving DecidableEq

/-- Python `range(hi, lo - 1, -1)`: the times from `hi` down to `lo`. -/
def rangeDown (hi lo : Int) : List Int :=
  (List.range (hi - lo + 1).toNat).map (fun i => hi - i)

/-- Python `range(lo, hi + 1)`: the times from `lo` up to `hi`. -/
def rangeUp (lo hi : Int) : List Int :=
  (List.range (hi - lo + 1).toNat).map (fun i => lo + i)

/-- Model of `FrameTimes._check_last_keyframe`: scan `times` (sorted highest
to lowest) for the layer's first keyframe hit and raise the upper limit `e`
to it; without a hit the limit is unchanged. -/
def check_last_keyframe (layer : Layer) (times : List Int) (e : Int) : Int :=
  match times.find? (fun t => layer.hasKeyframeAtTime t) with
  | some t => max e t
  | none => e

/-- Model of `FrameTimes._check_first_keyframe`: scan `times` (sorted lowest
to highest) for the layer's first keyframe hit and lower the lower limit `s`
to it. -/
def check_first_keyframe (layer : Layer) (times : List Int) (s : Int) : Int :=
  match times.find? (fun t => layer.hasKeyframeAtTime t) with
  | some t => min s t
  | none => s

/-- The `def_end` loop of `set_frame_times` (exporter.py lines 109-118):
update the end limit layer by layer, breaking early once it cannot grow
further (`self.end >= end_time`). -/
def scanEnd (layers : List Layer) (times : List Int) (endTime e : Int) : Int :=
  match layers with
  | [] => e
  | layer :: rest =>
    let e2 := check_last_keyframe layer times e
    if endTime ≤ e2 then e2 else scanEnd rest times endTime e2

/-- The `def_start` loop of `set_frame_times` (exporter.py lines 120-128),
symmetric to `scanEnd`. -/
def scanStart (layers : List Layer) (times : List Int) (startTime s : Int) : Int :=
  match layers with
  | [] => s
  | layer :: rest =>
    let s2 := check_first_keyframe layer times s
    if s2 ≤ startTime then s2 else scanStart rest times startTime s2

/-- The default applied to an unset start time (exporter.py line 84). -/
def resolvedStart (ft : FrameTimes) (doc : Document) : Int :=
  if ft.start = DEFAULT_TIME then doc.fullClipRangeStartTime else ft.start

/-- The default applied to an unset end time (exporter.py line 85). -/
def resolvedEnd (ft : FrameTimes) (doc : Document) : Int :=
  if ft.stop = DEFAULT_TIME then doc.fullClipRangeEndTime else ft.stop

/-- Model of `FrameTimes.set_frame_times` (exporter.py lines 70-128): resolve unset
frame-time limits.  Returns the updated `FrameTimes` state.  The steps, in
the source's order: return unchanged when both limits are explicit; apply the
full-clip-range defaults; short-circuit when the resolved limits coincide;
fall back to a single frame at time 0 when no layer is visible and animated;
otherwise swap a reversed range (negating a positive step) and scan the
layers' keyframes for the actual end and start. -/
def set_frame_times (ft : FrameTimes) (doc : Document) : FrameTimes :=
  if ft.start ≠ DEFAULT_TIME ∧ ft.stop ≠ DEFAULT_TIME then ft
  else
    if resolvedStart ft doc = resolvedEnd ft doc then
      { ft with start := resolvedStart ft doc, stop := resolvedStart ft doc }
    else
      if (doc.layers.filter (fun l => l.visible && l.animated)).isEmpty then
        { ft with start := 0, stop := 0 }
      else
        let startTime := resolvedStart ft doc
        let endTime := resolvedEnd ft doc
        let filtered_layers := doc.layers.filter (fun l => l.visible && l.animated)
        let st := if endTime < startTime then endTime else startTime
        let et := if endTime < startTime then startTime else endTime
        let step := if endTime < startTime ∧ 0 < ft.step then -ft.step else ft.step
        let e := if ft.stop = DEFAULT_TIME
          then scanEnd filtered_layers (rangeDown et st) et st
          else ft.stop
        let s := if ft.start = DEFAULT_TIME
          then scanStart filtered_layers (rangeUp st e) st e
          else ft.start
        { start := s, stop := e, step := step }

/-- Python `range(start, stop, step)` for integer arguments.  A step of 0
raises `ValueError` in Python; the exporter's step is never 0 (the UI spin box
minimum is 1 and the resolver only negates a positive step), so that case is
unreachable and modelled as the empty range. -/
def pythonRange (start stop step : Int) : List Int :=
  if 0 < step then
    (List.range
        (if stop ≤ start then 0 else (stop - start - 1).toNat / step.toNat + 1)).map
      (fun i => start + step * i)
  else if step < 0 then
    (List.range
        (if start ≤ stop then 0 else (start - stop - 1).toNat / (-step).toNat + 1)).map
      (fun i => start + step * i)
  else []

/-- The source document state used by `Exporter._copy_frames` in timeline
mode: the current playhead time, and the pixel rectangle contents as a
function of the playhead (the byte sequence `Document.pixelData` yields after
`setCurrentTime` plus `waitForDone`). -/
structure SrcDoc where
  currentTime : Int
  pixelAt : Int → List Nat

/-- The frame loop of `Exporter._copy_frames` in timeline mode (exporter.py
lines 219-233): for each time, seek the document there, read the pixel data,
skip it when deduplication is on and the same bytes were already seen, and
otherwise keep it (each kept buffer becomes a paint layer of the sheet).
Returns the source document state after the loop together with the kept
buffers in order. -/
def copyTimelineLoop (src : SrcDoc) (unique : Bool) (seen : List (List Nat)) :
    List Int → SrcDoc × List (List Nat)
  | [] => (src, [])
  | t :: rest =>
    let src2 : SrcDoc := { src with currentTime := t }
    let pd := src2.pixelAt src2.currentTime
    if unique = true ∧ pd ∈ seen then copyTimelineLoop src2 unique seen rest
    else
      let res := copyTimelineLoop src2 unique (if unique then pd :: seen else seen) rest
      (res.1, pd :: res.2)

/-- Model of `Exporter._copy_frames` in timeline mode (exporter.py lines
212-235): resolve default frame times if either is unset, remember the
current playhead, run the frame loop over `range(start, end + 1, step)`, and
restore the playhead afterwards.  `doc` carries the clip range and layers the
resolver reads; `src` carries the playhead and pixel data of the same host
document. -/
def copy_frames_timeline (src : SrcDoc) (ft0 : FrameTimes) (doc : Document)
    (unique : Bool) : SrcDoc × List (List Nat) :=
  let ft := if ft0.stop = DEFAULT_TIME ∨ ft0.start = DEFAULT_TIME
    then set_frame_times ft0 doc else ft0
  let initial_time := src.currentTime
  let res := copyTimelineLoop src unique [] (pythonRange ft.start (ft.stop + 1) ft.step)
  ({ res.1 with currentTime := initial_time }, res.2)

/-- The per-buffer loop of `Exporter._copy_frames` in layers-as-animation mode
(exporter.py lines 201-211): iterate the visible paint layers' extracted
pixel buffers in stacking order, skipping a buffer already seen when
deduplication is on.  The deduplication logic is character-for-character the
same as in the timeline branch. -/
def layersLoop (unique : Bool) (seen : List (List Nat)) :
    List (List Nat) → List (List Nat)
  | [] => []
  | pd :: rest =>
    if unique = true ∧ pd ∈ seen then layersLoop unique seen rest
    else pd :: layersLoop unique (if unique then pd :: seen else seen) rest

/-- Model of `Exporter._copy_frames` in layers-as-animation mode: collect the
pixel buffers of the visible paint layers, starting from an empty seen-set. -/
def copy_frames_layers (visible_buffers : List (List Nat)) (unique : Bool) :
    List (List Nat) :=
  layersLoop unique [] visible_buffers

/-- One record of the JSON texture atlas (exporter.py lines 279-291). -/
structure AtlasEntry where
  filename : Nat
  x : Nat
  y : Nat
  w : Nat
  h : Nat
deriving DecidableEq

/-- The placement-and-atlas loop of `Exporter._process_frames` (exporter.py
lines 252-291): frame `i` goes to cell `(i % columns, i // columns)` when
horizontal and `(i // rows, i % rows)` otherwise, scaled by the padded frame
size, and one atlas record is appended per frame.  `num_layers` is the number
of top-level layers of the sheet, i.e. the collected frame count. -/
def process_frames (num_layers columns rows : Nat) (horizontal : Bool)
    (width height : Nat) : List AtlasEntry :=
  (List.range num_layers).map (fun i =>
    if horizontal then
      { filename := i, x := (i % columns) * width, y := (i / columns) * height,
        w := width, h := height }
    else
      { filename := i, x := (i / rows) * width, y := (i % rows) * height,
        w := width, h := height })

/-- Model of `SpritesheetExporter.positionLayer` (spritesheet_exporter.py
lines 33-38): the pixel position of sprite `imgNum` in the old pipeline. -/
def positionLayer (isHorizontal : Bool) (columns rows : Nat) (imgNum : Nat)
    (width height : Nat) : Nat × Nat :=
  ((imgNum % (if isHorizontal then columns else rows)) * width,
   (imgNum / (if isHorizontal then columns else rows)) * height)

/-- The pieces of a `pathlib.Path` value that `_process_frames` reads. -/
structure PyPath where
  stem : String
  suffix : String
deriving DecidableEq

/-- The string attributes `pathlib.Path` actually offers among those the
exporter sources mention; reading any other attribute raises `AttributeError`
in Python, modelled as `none`. -/
def PyPath.getattr (p : PyPath) : String → Option String
  | "stem" => some p.stem
  | "name" => some (p.stem ++ p.suffix)
  | "suffix" => some p.suffix
  | _ => none

/-- Python `str.zfill`: left-pad with zeros to the requested width (the frame
indices here are nonnegative, so no sign handling is needed). -/
def zfill (s : String) (width : Nat) : String :=
  String.mk (List.replicate (width - s.length) '0') ++ s

/-- The per-frame file name built by `Exporter._process_frames` (exporter.py
lines 254-260): the join of `self.export_path.base_name`, `str(i).zfill(3)`
and `self.export_path.suffix`.  Since `base_name` is not an attribute of
`pathlib.Path`, the first lookup raises `AttributeError` (`none`). -/
def frame_file_name (p : PyPath) (i : Nat) : Option String :=
  match p.getattr "base_name" with
  | some base => some (base ++ zfill (toString i) 3 ++ p.suffix)
  | none => none

/-- Modelled from the spec: the per-frame file name the spec promises,
`<base><index:03d><ext>`. -/
def frameFileNameSpec (base : String) (i : Nat) (ext : String) : String :=
  base ++ zfill (toString i) 3 ++ ext

/-! Helper lemmas shared by the claim theorems. -/

lemma packE_ten : packE 10 DEFAULT_SPACE DEFAULT_SPACE = Except.ok (4, 4) := by
  unfold packE
  rw [if_neg (by simp), if_neg (by simp), ceilSqrt_ten]

lemma ssPack_ten : ssPack 10 DEFAULT_SPACE DEFAULT_SPACE = (4, 3) := by
  unfold ssPack
  rw [if_pos ⟨rfl, rfl⟩]
  show (ceilSqrt 10, cdiv 10 (ceilSqrt 10)) = (4, 3)
  rw [ceilSqrt_ten]
  rfl

lemma layersLoop_true_cons (seen : List (List Nat)) (pd : List Nat)
    (rest : List (List Nat)) :
    layersLoop true seen (pd :: rest) =
      if pd ∈ seen then layersLoop true seen rest
      else pd :: layersLoop true (pd :: seen) rest := by
  simp [layersLoop]

lemma layersLoop_skip (b : List Nat) (l2 : List (List Nat)) :
    ∀ (l1 seen : List (List Nat)), b ∈ l1 ∨ b ∈ seen →
      layersLoop true seen (l1 ++ b :: l2) = layersLoop true seen (l1 ++ l2) := by
  intro l1
  induction l1 with
  | nil =>
    intro seen hmem
    have hb : b ∈ seen := by
      rcases hmem with h | h
      · exact absurd h (List.not_mem_nil b)
      · exact h
    rw [List.nil_append, List.nil_append, layersLoop_true_cons, if_pos hb]
  | cons a t ih =>
    intro seen hmem
    rw [List.cons_append, List.cons_append, layersLoop_true_cons,
      layersLoop_true_cons]
    by_cases ha : a ∈ seen
    · rw [if_pos ha, if_pos ha]
      apply ih
      rcases hmem with h | h
      · rcases List.mem_cons.mp h with h1 | h1
        · right
          rw [h1]
          exact ha
        · left
          exact h1
      · right
        exact h
    · rw [if_neg ha, if_neg ha]
      congr 1
      apply ih
      rcases hmem with h | h
      · rcases List.mem_cons.mp h with h1 | h1
        · right
          rw [h1]
          exact List.mem_cons_self a seen
        · left
          exact h1
      · right
        exact List.mem_cons_of_mem a h

lemma layersLoop_keep (b : List Nat) (l2 : List (List Nat)) :
    ∀ (l1 seen : List (List Nat)), b ∉ l1 → b ∉ seen →
      b ∈ layersLoop true seen (l1 ++ b :: l2) := by
  intro l1
  induction l1 with
  | nil =>
    intro seen _ hseen
    rw [List.nil_append, layersLoop_true_cons, if_neg hseen]
    exact List.mem_cons_self b _
  | cons a t ih =>
    intro seen hl1 hseen
    rw [List.cons_append, layersLoop_true_cons]
    have hba : b ≠ a := by
      intro h
      exact hl1 (h ▸ List.mem_cons_self a t)
    by_cases ha : a ∈ seen
    · rw [if_pos ha]
      exact ih seen (fun h => hl1 (List.mem_cons_of_mem a h)) hseen
    · rw [if_neg ha]
      apply List.mem_cons_of_mem
      apply ih
      · exact fun h => hl1 (List.mem_cons_of_mem a h)
      · intro h
        rcases List.mem_cons.mp h with h1 | h1
        · exact hba h1
        · exact hseen h1

/-- The timeline frame loop collects exactly what the layers-mode loop
collects on the pixel buffers read at the visited times: the deduplication
behaviour of the two collector branches coincides. -/
lemma copyTimelineLoop_frames (unique : Bool) :
    ∀ (ts : List Int) (src : SrcDoc) (seen : List (List Nat)),
      (copyTimelineLoop src unique seen ts).2 =
        layersLoop unique seen (ts.map src.pixelAt) := by
  intro ts
  induction ts with
  | nil =>
    intro src seen
    rfl
  | cons t rest ih =>
    intro src seen
    show (if unique = true ∧ src.pixelAt t ∈ seen then
        copyTimelineLoop ⟨t, src.pixelAt⟩ unique seen rest
      else
        let res := copyTimelineLoop ⟨t, src.pixelAt⟩ unique
          (if unique then src.pixelAt t :: seen else seen) rest
        (res.1, src.pixelAt t :: res.2)).2 =
      if unique = true ∧ src.pixelAt t ∈ seen then
        layersLoop unique seen (rest.map src.pixelAt)
      else src.pixelAt t ::
        layersLoop unique (if unique then src.pixelAt t :: seen else seen)
          (rest.map src.pixelAt)
    by_cases h : unique = true ∧ src.pixelAt t ∈ seen
    · rw [if_pos h, if_pos h]
      exact ih ⟨t, src.pixelAt⟩ seen
    · rw [if_neg h, if_neg h]
      show src.pixelAt t :: (copyTimelineLoop ⟨t, src.pixelAt⟩ unique _ rest).2 = _
      rw [ih ⟨t, src.pixelAt⟩]

/-! Claim theorems. -/

/-- C1: for every collected frame count n ≥ 1 the grid-packing step of export
returns without error, and returns rows and columns with
rows * columns ≥ n, in all three branches (columns fixed, rows fixed, both
unset) - for the current pipeline (`packE`/`packT`, exporter.py) always, and
for the old pipeline (`ssPack`, spritesheet_exporter.py) on the same three
branches - so no frame ever lacks a grid cell. -/
theorem pack_covers_all_frames (n c r : Nat) (hn : 1 ≤ n) :
    packE n c r = Except.ok (packT n c r) ∧
    n ≤ (packT n c r).2 * (packT n c r).1 ∧
    (c = DEFAULT_SPACE ∨ r = DEFAULT_SPACE →
      n ≤ (ssPack n c r).2 * (ssPack n c r).1) := by
  refine ⟨packE_eq_ok n c r hn, ?_, ?_⟩
  · unfold packT
    by_cases hc : c ≠ DEFAULT_SPACE
    · rw [if_pos hc]
      have h1 : 1 ≤ min c n := by
        unfold DEFAULT_SPACE at hc
        omega
      exact le_cdiv_mul n (min c n) h1
    · rw [if_neg hc]
      by_cases hr : r ≠ DEFAULT_SPACE
      · rw [if_pos hr]
        have h1 : 1 ≤ min r n := by
          unfold DEFAULT_SPACE at hr
          omega
        calc n ≤ cdiv n (min r n) * min r n := le_cdiv_mul n (min r n) h1
          _ = min r n * cdiv n (min r n) := Nat.mul_comm _ _
      · rw [if_neg hr]
        exact le_ceilSqrt_sq n
  · intro hcr
    unfold ssPack
    by_cases hr : r = DEFAULT_SPACE
    · by_cases hc : c = DEFAULT_SPACE
      · rw [if_pos ⟨hr, hc⟩]
        show n ≤ cdiv n (ceilSqrt n) * ceilSqrt n
        exact le_cdiv_mul n (ceilSqrt n) (ceilSqrt_pos n hn)
      · rw [if_neg (by tauto), if_pos hr]
        have h1 : 1 ≤ c := by
          unfold DEFAULT_SPACE at hc
          omega
        exact le_cdiv_mul n c h1
    · have hc : c = DEFAULT_SPACE := by tauto
      rw [if_neg (by tauto), if_neg hr, if_pos hc]
      show n ≤ cdiv n (cdiv n r) * cdiv n r
      have h1 : 1 ≤ cdiv n r := by
        apply cdiv_pos n r hn
        unfold DEFAULT_SPACE at hr
        omega
      exact le_cdiv_mul n (cdiv n r) h1

/-- Witness for C1 at n = 10, columns = 7, rows = 0. -/
theorem pack_covers_all_frames_witness :
    1 ≤ 10 ∧
      (packE 10 7 0 = Except.ok (packT 10 7 0) ∧
      10 ≤ (packT 10 7 0).2 * (packT 10 7 0).1 ∧
      (7 = DEFAULT_SPACE ∨ 0 = DEFAULT_SPACE →
        10 ≤ (ssPack 10 7 0).2 * (ssPack 10 7 0).1)) :=
  ⟨by decide, pack_covers_all_frames 10 7 0 (by decide)⟩

/-- C2 counterexample: the old pipeline's square fit
(spritesheet_exporter.py lines 268-271, cited by the claim) at 10 frames sets
columns to ceil(sqrt(10)) = 4 but rows to ceil(10 / 4) = 3, so packing does
not set both equal to ceil(sqrt(n)). -/
theorem square_fit_rows_cex :
    ssPack 10 DEFAULT_SPACE DEFAULT_SPACE = (4, 3) ∧ ceilSqrt 10 = 4 ∧
      (3 : Nat) ≠ 4 :=
  ⟨ssPack_ten, ceilSqrt_ten, by decide⟩

/-- C2 (amended): for every frame count n ≥ 1 with both rows and columns at
the unset sentinel 0, the current pipeline (exporter.py) sets columns and
rows both to ceil(sqrt(n)), while the old pipeline
(spritesheet_exporter.py) sets columns to ceil(sqrt(n)) but rows to
ceil(n / ceil(sqrt(n))). -/
theorem square_fit_pack (n : Nat) (hn : 1 ≤ n) :
    packE n DEFAULT_SPACE DEFAULT_SPACE = Except.ok (ceilSqrt n, ceilSqrt n) ∧
    ssPack n DEFAULT_SPACE DEFAULT_SPACE = (ceilSqrt n, cdiv n (ceilSqrt n)) := by
  constructor
  · unfold packE
    rw [if_neg (by simp), if_neg (by simp)]
  · unfold ssPack
    rw [if_pos ⟨rfl, rfl⟩]

/-- Witness for C2 (amended) at n = 10. -/
theorem square_fit_pack_witness :
    1 ≤ 10 ∧
      (packE 10 DEFAULT_SPACE DEFAULT_SPACE =
        Except.ok (ceilSqrt 10, ceilSqrt 10) ∧
      ssPack 10 DEFAULT_SPACE DEFAULT_SPACE =
        (ceilSqrt 10, cdiv 10 (ceilSqrt 10))) :=
  ⟨by decide, square_fit_pack 10 (by decide)⟩

/-- C3 counterexample: at 10 collected frames with rows = columns = 0 the
current pipeline (`Exporter.export`, cited by the claim) sizes the sheet
4 x 4 cells, not 4 x 3: its square fit sets rows = ceil(sqrt(10)) = 4. -/
theorem ten_frames_grid_cex :
    packE 10 DEFAULT_SPACE DEFAULT_SPACE = Except.ok (4, 4) ∧ (4 : Nat) ≠ 3 :=
  ⟨packE_ten, by decide⟩

/-- C3 (amended): a 10-frame export with rows = columns = 0 yields 4 columns
and 4 rows in the current pipeline and 4 columns and 3 rows in the old one;
the texture atlas holds exactly 10 entries, the i-th placed at
x = (i % 4) * frameWidth and y = (i // 4) * frameHeight, and the old
pipeline places its sprites at those same positions. -/
theorem ten_frames_grid_and_atlas (w h i : Nat) (hi : i < 10) :
    packE 10 DEFAULT_SPACE DEFAULT_SPACE = Except.ok (4, 4) ∧
    ssPack 10 DEFAULT_SPACE DEFAULT_SPACE = (4, 3) ∧
    (process_frames 10 4 4 true w h).length = 10 ∧
    (process_frames 10 4 4 true w h)[i]? =
      some { filename := i, x := (i % 4) * w, y := (i / 4) * h,
             w := w, h := h } ∧
    positionLayer true 4 3 i w h = ((i % 4) * w, (i / 4) * h) := by
  refine ⟨packE_ten, ssPack_ten, ?_, ?_, ?_⟩
  · simp [process_frames]
  · simp [process_frames, List.getElem?_map, List.getElem?_range, hi]
  · simp [positionLayer]

/-- Witness for C3 (amended) at frame size 3 x 5 and ordinal i = 9. -/
theorem ten_frames_grid_and_atlas_witness :
    9 < 10 ∧
      (packE 10 DEFAULT_SPACE DEFAULT_SPACE = Except.ok (4, 4) ∧
      ssPack 10 DEFAULT_SPACE DEFAULT_SPACE = (4, 3) ∧
      (process_frames 10 4 4 true 3 5).length = 10 ∧
      (process_frames 10 4 4 true 3 5)[9]? =
        some { filename := 9, x := (9 % 4) * 3, y := (9 / 4) * 5,
               w := 3, h := 5 } ∧
      positionLayer true 4 3 9 3 5 = ((9 % 4) * 3, (9 / 4) * 5)) :=
  ⟨by decide, ten_frames_grid_and_atlas 3 5 9 (by decide)⟩

/-- C4 counterexample: with explicit start = 10, end = 2, step = 1 (both
bounds set, so not the default sentinel -1), the resolver returns the times
unchanged - it does not swap them to (2, 10, -1). -/
theorem explicit_swap_cex :
    set_frame_times ⟨10, 2, 1⟩ ⟨0, 100, []⟩ = ⟨10, 2, 1⟩ ∧
      (⟨10, 2, 1⟩ : FrameTimes) ≠ ⟨2, 10, -1⟩ := by
  constructor
  · rfl
  · decide

/-- C4 (amended): frame-time resolution returns explicit start and end
unchanged, even when start > end; the swap-and-negate of the spec applies
only on the path where at least one bound is unset. -/
theorem explicit_times_unchanged (ft : FrameTimes) (doc : Document)
    (hs : ft.start ≠ DEFAULT_TIME) (he : ft.stop ≠ DEFAULT_TIME) :
    set_frame_times ft doc = ft := by
  unfold set_frame_times
  rw [if_pos ⟨hs, he⟩]

/-- Witness for C4 (amended) at start = 10, end = 2, step = 1. -/
theorem explicit_times_unchanged_witness :
    (10 : Int) ≠ DEFAULT_TIME ∧ (2 : Int) ≠ DEFAULT_TIME ∧
      set_frame_times ⟨10, 2, 1⟩ ⟨0, 100, []⟩ = ⟨10, 2, 1⟩ :=
  ⟨by decide, by decide,
    explicit_times_unchanged ⟨10, 2, 1⟩ ⟨0, 100, []⟩ (by decide) (by decide)⟩

/-- C5: for every frame count n ≥ 1 and user-fixed column count c ≥ 1 with
rows unset, the packing of `Exporter.export` clamps columns to min(c, n) and
returns rows = ceil(n / c). -/
theorem fixed_columns_pack (n c : Nat) (hn : 1 ≤ n) (hc : 1 ≤ c) :
    packE n c DEFAULT_SPACE = Except.ok (min c n, cdiv n c) := by
  unfold packE
  have hc0 : c ≠ DEFAULT_SPACE := by
    unfold DEFAULT_SPACE
    omega
  have hmin : ¬ (min c n = 0) := by omega
  rw [if_pos hc0, if_neg hmin, cdiv_min n c hn]

/-- Witness for C5 at n = 10, c = 4: packing returns 4 columns and
ceil(10 / 4) = 3 rows. -/
theorem fixed_columns_pack_witness :
    1 ≤ 10 ∧ 1 ≤ 4 ∧
      packE 10 4 DEFAULT_SPACE = Except.ok (min 4 10, cdiv 10 4) :=
  ⟨by decide, by decide, fixed_columns_pack 10 4 (by decide) (by decide)⟩

/-- C6 counterexample: in the collected buffer sequence [0], [1], [0] the
second and third frames differ in a byte, yet the collector keeps only two
frames - the third is dropped because it matches the first - so two frames
differing in at least one byte are not always both kept. -/
theorem unique_frames_pair_cex :
    copy_frames_layers [[0], [1], [0]] true = [[0], [1]] ∧
      ([1] : List Nat) ≠ [0] := by
  constructor
  · rfl
  · decide

/-- C6 (amended): with unique-frames deduplication enabled, a collected frame
is kept exactly when its pixel buffer differs from the buffer of every
earlier collected frame, under exact byte equality of the extracted buffers
(not a perceptual comparison): of byte-for-byte identical frames only the
first is kept, and a frame differing in at least one byte from each earlier
frame is kept. -/
theorem unique_frames_dedup (l1 l2 : List (List Nat)) (b : List Nat) :
    (b ∈ l1 →
      copy_frames_layers (l1 ++ b :: l2) true =
        copy_frames_layers (l1 ++ l2) true) ∧
    (b ∉ l1 → b ∈ copy_frames_layers (l1 ++ b :: l2) true) := by
  constructor
  · intro h
    exact layersLoop_skip b l2 l1 [] (Or.inl h)
  · intro h
    exact layersLoop_keep b l2 l1 [] h (List.not_mem_nil b)

/-- Witness for C6 (amended): an identical pair collapses to its first
element, and a fresh buffer is kept. -/
theorem unique_frames_dedup_witness :
    (([0] : List Nat) ∈ [[0]] ∧
      copy_frames_layers [[0], [0]] true = copy_frames_layers [[0]] true) ∧
    (([1] : List Nat) ∉ [[0]] ∧
      [1] ∈ copy_frames_layers [[0], [1]] true) :=
  ⟨⟨by decide, (unique_frames_dedup [[0]] [] [0]).1 (by decide)⟩,
   ⟨by decide, (unique_frames_dedup [[0]] [] [1]).2 (by decide)⟩⟩

/-- C7 counterexample: with both bounds unset on a document whose full clip
range is the single time 5 and which has no visible animated layer, the
resolver returns start = end = 5, not 0: the equal-times short-circuit runs
before the no-animated-layer fallback. -/
theorem no_layer_fallback_cex :
    set_frame_times ⟨DEFAULT_TIME, DEFAULT_TIME, 1⟩ ⟨5, 5, []⟩ = ⟨5, 5, 1⟩ ∧
      (5 : Int) ≠ 0 := by
  constructor
  · rfl
  · decide

/-- C7 (amended): during frame-time resolution with at least one bound unset,
if the resolved default start and end times differ and no candidate layer is
both visible and animated, resolution sets start = end = 0 (a single frame
at time 0, the step unchanged); when the resolved times coincide, the
single-frame short-circuit returns that time instead. -/
theorem no_animated_layer_single_frame (ft : FrameTimes) (doc : Document)
    (hdef : ft.start = DEFAULT_TIME ∨ ft.stop = DEFAULT_TIME)
    (hne : resolvedStart ft doc ≠ resolvedEnd ft doc)
    (hfilter : (doc.layers.filter (fun l => l.visible && l.animated)).isEmpty
      = true) :
    set_frame_times ft doc = { start := 0, stop := 0, step := ft.step } := by
  unfold set_frame_times
  rw [if_neg (by tauto), if_neg hne, if_pos hfilter]

/-- Witness for C7 (amended): both bounds unset, clip range 0 to 5, no
layers. -/
theorem no_animated_layer_single_frame_witness :
    ((DEFAULT_TIME : Int) = DEFAULT_TIME ∨ (DEFAULT_TIME : Int) = DEFAULT_TIME) ∧
    resolvedStart ⟨DEFAULT_TIME, DEFAULT_TIME, 1⟩ ⟨0, 5, []⟩ ≠
      resolvedEnd ⟨DEFAULT_TIME, DEFAULT_TIME, 1⟩ ⟨0, 5, []⟩ ∧
    set_frame_times ⟨DEFAULT_TIME, DEFAULT_TIME, 1⟩ ⟨0, 5, []⟩ = ⟨0, 0, 1⟩ :=
  ⟨Or.inl rfl, by decide,
    no_animated_layer_single_frame ⟨DEFAULT_TIME, DEFAULT_TIME, 1⟩ ⟨0, 5, []⟩
      (Or.inl rfl) (by decide) (by decide)⟩

/-- C8: the per-frame export never writes the promised
<base><index:03d><ext> file name: `Exporter._process_frames` builds the name
from `self.export_path.base_name`, an attribute `pathlib.Path` does not
define, so for every export path and frame ordinal the lookup raises
AttributeError (`none`) instead of producing the spec's name. -/
theorem frame_file_name_attribute_error (p : PyPath) (i : Nat) :
    frame_file_name p i = none ∧
      frame_file_name p i ≠ some (frameFileNameSpec p.stem i p.suffix) := by
  constructor
  · rfl
  · intro h
    rw [show frame_file_name p i = none from rfl] at h
    exact Option.noConfusion h

/-- C9: in timeline mode the collector restores the source document's
playhead: for every source document, frame-range configuration and
deduplication setting, after `_copy_frames` returns the document's current
time equals the value it had when collection began. -/
theorem copy_frames_restores_time (src : SrcDoc) (ft : FrameTimes)
    (doc : Document) (unique : Bool) (hstep : ft.step ≠ 0) :
    (copy_frames_timeline src ft doc unique).1.currentTime = src.currentTime := by
  rfl

/-- Witness for C9: a document at playhead 42 exporting times 0 to 3. -/
theorem copy_frames_restores_time_witness :
    (1 : Int) ≠ 0 ∧
      (copy_frames_timeline ⟨42, fun t => [t.toNat]⟩ ⟨0, 3, 1⟩ ⟨0, 3, []⟩
          false).1.currentTime = 42 :=
  ⟨by decide,
    copy_frames_restores_time ⟨42, fun t => [t.toNat]⟩ ⟨0, 3, 1⟩ ⟨0, 3, []⟩
      false (by decide)⟩

/-- C10: the grid packing is safe only for a positive frame count: with zero
collected frames and a user-fixed columns (or rows) value of at least 1, the
clamp min(value, 0) yields divisor 0 and the packing of `Exporter.export`
raises ZeroDivisionError, while for every frame count n ≥ 1 the clamp
produces a divisor of at least 1 and packing returns normally. -/
theorem pack_zero_frames_crash (c r : Nat) (h : 1 ≤ c ∨ 1 ≤ r) :
    packE 0 c r = Except.error () ∧
    ∀ n : Nat, 1 ≤ n → packE n c r = Except.ok (packT n c r) := by
  constructor
  · unfold packE
    by_cases hc : c ≠ DEFAULT_SPACE
    · rw [if_pos hc, if_pos (by omega : min c 0 = 0)]
    · have hr : r ≠ DEFAULT_SPACE := by
        unfold DEFAULT_SPACE at *
        omega
      rw [if_neg hc, if_pos hr, if_pos (by omega : min r 0 = 0)]
  · exact fun n hn => packE_eq_ok n c r hn

/-- Witness for C10 at columns = 3, rows = 0, and the safe case at n = 5. -/
theorem pack_zero_frames_crash_witness :
    (1 ≤ 3 ∨ 1 ≤ 0) ∧ packE 0 3 0 = Except.error () ∧ 1 ≤ 5 ∧
      packE 5 3 0 = Except.ok (packT 5 3 0) :=
  ⟨by decide, (pack_zero_frames_crash 3 0 (by decide)).1, by decide,
    (pack_zero_frames_crash 3 0 (by decide)).2 5 (by decide)⟩

end SpriteSheet
